import Mathlib

/-!
Verification of the blockchain-payment-processor core against its
natural-language specification.

The definitions below are a shallow embedding of the JavaScript source:

* `src/src/listeners/BaseBlockchainListener.js` — transaction processing,
  amount formatting, cursor handling;
* `src/BEP20Listener` (`unnamed/part_017`) — `initialize`, `poll` with the
  bounded catch-up clamp;
* `src/src/payment/PaymentProcessor.js` — amount verification, the
  `transaction.confirmed` event handler, `PaymentSessionManager.createSession`
  / `validateSessionData` / `completeSession` / `expireSession`;
* `src/src/api/services/TransactionStorage.js` — `addTransaction`,
  `updateTransactionStatus`;
* the listener-side target-amount gate of `unnamed/part_016`
  (`processTransaction`, −5 % lower bound in smallest units).

JavaScript `number` amounts produced by `parseFloat` are modelled as exact
rationals (`ℚ`); all concrete inputs used in theorems are small integers for
which JS double arithmetic is exact, so no proved statement depends on
floating-point rounding.  On-chain raw values (`BigInt` / `uint256`) are
modelled as `ℕ`, block numbers and confirmation counts as `ℤ` (JS numbers
used as integers).  The in-memory database that the source stubs out
(`findTransactionByHash`, `updateTransactionConfirmations`, ...) is modelled
as an explicit list that the listener threads through its calls.
-/

namespace BPP

/-- Session lifecycle status (`PENDING`/`COMPLETED`/`EXPIRED`/`FAILED`). -/
inductive SessionStatus where
  | PENDING
  | COMPLETED
  | EXPIRED
  | FAILED
deriving DecidableEq, Repr

/-- Transfer/transaction status (`PENDING`/`CONFIRMED`/`FAILED`). -/
inductive TxStatus where
  | PENDING
  | CONFIRMED
  | FAILED
deriving DecidableEq, Repr

/-- Per-chain configuration, from `src/config/networks.js`: the fields the
embedded operations consult. -/
structure ChainConfig where
  name : String
  tokenName : String
  tokenDecimals : Nat
  requiredConfirmations : Int
  recipientAddress : Option String
deriving DecidableEq, Repr

/-- A raw transaction observation handed to `processTransaction` by a
listener's `checkAddressTransactions` (hash, from, to, raw value in
smallest units, block number, confirmation estimate). -/
structure IncomingTx where
  hash : String
  fromAddr : String
  toAddr : String
  value : Nat
  blockNumber : Int
  confirmations : Int
deriving DecidableEq, Repr

/-- A stored transaction record, as created by
`BaseBlockchainListener.processTransaction` and held by
`TransactionStorage`. -/
structure StoredTx where
  id : Nat
  sessionId : String
  txHash : String
  fromAddress : String
  toAddress : String
  amount : String
  currency : String
  network : String
  confirmations : Int
  status : TxStatus
  detectedAt : Nat
  confirmedAt : Option Nat
  blockNumber : Int
deriving DecidableEq, Repr

/-- `BaseBlockchainListener.formatTokenAmount` (src/src/listeners, lines
209–211): `(BigInt(amount) / BigInt(10 ** decimals)).toString()` — integer
division, so the fractional part of the token amount is discarded. -/
def formatTokenAmount (amount : Nat) (decimals : Nat) : String :=
  toString (amount / 10 ^ decimals)

/-- `BEP20Listener.poll` catch-up clamp (`unnamed/part_017`, lines 76–82):
`fromBlock = lastCheckedBlock + 1`; if `currentBlock > fromBlock + 500`
then `fromBlock = currentBlock - 499`. -/
def bep20CatchupFrom (lastCheckedBlock currentBlock : Int) : Int :=
  let fromBlock := lastCheckedBlock + 1
  if currentBlock > fromBlock + 500 then currentBlock - 499 else fromBlock

/-- The specification's amount gate over smallest units (spec §4.3/§9):
accept when `rawValue ≥ target − target*5/100`, integer arithmetic.  This
definition follows the SPEC's words; it is compared against the embedded
code. -/
def specAmountGate (rawValue target : Nat) : Bool :=
  target - target * 5 / 100 ≤ rawValue

/-- The listener-side target-amount gate of `unnamed/part_016`
`processTransaction` (lines 404–418), applied only when
`config.targetAmount` is set: `fivePercent = target*5n/100n`,
`lowerBound = target − fivePercent`, reject iff
`receivedAmount < lowerBound`. -/
def targetAmountGate (receivedAmount target : Nat) : Bool :=
  ¬ receivedAmount < target - target * 5 / 100

/-- Events emitted by the listener towards the payment processor
(`transaction.detected` / `transaction.confirmed`, each carrying the stored
transaction id and the resolved session id). -/
inductive Event where
  | detected (txId : Nat) (sessionId : String)
  | confirmed (txId : Nat) (sessionId : String)
deriving DecidableEq, Repr

/-- The listener's in-memory transaction store (the database the source
stubs behind `findTransactionByHash` / `createTransaction` /
`updateTransactionConfirmations` / `confirmTransaction`), plus the id
supply for new records. -/
structure ListenerStore where
  txs : List StoredTx
  nextId : Nat
deriving DecidableEq, Repr

/-- JS `String.prototype.toLowerCase` for the ASCII hex addresses the
listeners compare (character-wise lowering). -/
def asciiLower (s : String) : String :=
  String.mk (s.data.map Char.toLower)

/-- `BaseBlockchainListener.findPaymentAddressByAddress` (src/src/listeners,
lines 219–233): matches the incoming `to` address case-insensitively against
`config.recipientAddress` and returns the mock session id
`"mock_session_for_" ++ address`. -/
def findPaymentAddressByAddress (cfg : ChainConfig) (address : String) :
    Option String :=
  match cfg.recipientAddress with
  | some r =>
      if asciiLower address = asciiLower r then
        some ("mock_session_for_" ++ address)
      else
        none
  | none => none

/-- The existing-transaction branch of
`BaseBlockchainListener.processTransaction` (src/src/listeners, lines
145–163): update confirmations only when the new count is strictly larger;
when the updated count reaches `requiredConfirmations` and the record was
not yet `CONFIRMED`, mark it `CONFIRMED`. -/
def applyObservationToExisting (cfg : ChainConfig) (ex : StoredTx)
    (tx : IncomingTx) : StoredTx :=
  if ex.confirmations < tx.confirmations then
    { ex with
      confirmations := tx.confirmations
      status :=
        if cfg.requiredConfirmations ≤ tx.confirmations ∧
            ex.status ≠ TxStatus.CONFIRMED then
          TxStatus.CONFIRMED
        else
          ex.status }
  else
    ex

/-- The record created by the new-transaction branch of
`BaseBlockchainListener.processTransaction` (src/src/listeners, lines
166–179): `amount` is `formatTokenAmount value tokenDecimals`, and the
status/`confirmedAt` are `CONFIRMED`/`now` exactly when the confirmation
estimate already meets the threshold. -/
def newTxRecord (cfg : ChainConfig) (now : Nat) (st : ListenerStore)
    (tx : IncomingTx) (sid : String) : StoredTx :=
  { id := st.nextId
    sessionId := sid
    txHash := tx.hash
    fromAddress := tx.fromAddr
    toAddress := tx.toAddr
    amount := formatTokenAmount tx.value cfg.tokenDecimals
    currency := cfg.tokenName
    network := cfg.name
    confirmations := tx.confirmations
    status :=
      if cfg.requiredConfirmations ≤ tx.confirmations then TxStatus.CONFIRMED
      else TxStatus.PENDING
    detectedAt := now
    confirmedAt :=
      if cfg.requiredConfirmations ≤ tx.confirmations then some now else none
    blockNumber := tx.blockNumber }

/-- `BaseBlockchainListener.processTransaction` (src/src/listeners, lines
132–201).  Returns the updated store and the list of events emitted, in
emission order. -/
def processTransaction (cfg : ChainConfig) (now : Nat) (st : ListenerStore)
    (tx : IncomingTx) : ListenerStore × List Event :=
  match findPaymentAddressByAddress cfg tx.toAddr with
  | none => (st, [])
  | some sid =>
    match st.txs.find? (fun t => t.txHash = tx.hash) with
    | some ex =>
        if ex.confirmations < tx.confirmations then
          ( { st with
              txs := st.txs.map fun t =>
                if t.id = ex.id then applyObservationToExisting cfg ex tx
                else t },
            if cfg.requiredConfirmations ≤ tx.confirmations ∧
                ex.status ≠ TxStatus.CONFIRMED then
              [Event.confirmed ex.id sid]
            else
              [] )
        else
          (st, [])
    | none =>
        ( { txs := st.txs ++ [newTxRecord cfg now st tx sid]
            nextId := st.nextId + 1 },
          Event.detected (newTxRecord cfg now st tx sid).id sid ::
            (if cfg.requiredConfirmations ≤ tx.confirmations then
              [Event.confirmed (newTxRecord cfg now st tx sid).id sid]
            else
              []) )

/-- `PaymentProcessor.verifyPaymentAmount` (src/src/payment, lines 167–176):
`|parseFloat(transaction.amount) − parseFloat(session.amount)| ≤
session.amount * 0.001` — a two-sided 0.1 % tolerance band.  Parsed JS
numbers are modelled as exact rationals. -/
def verifyPaymentAmount (transactionAmount sessionAmount : ℚ) : Bool :=
  |transactionAmount - sessionAmount| ≤ sessionAmount * (1 / 1000)

/-- Whether the `transaction.detected` handler of `PaymentProcessor`
(lines 57–100) together with `handlePaymentAmountMismatch` (lines 214–252)
completes the session: if the 0.1 % band holds, completion requires the
confirmation threshold; otherwise the mismatch handler completes exactly
when the received amount is not an underpayment
(`transactionAmount ≥ sessionAmount`). -/
def detectionPathCompletes (transactionAmount sessionAmount : ℚ)
    (confirmations required : Int) : Bool :=
  if verifyPaymentAmount transactionAmount sessionAmount then
    required ≤ confirmations
  else
    sessionAmount ≤ transactionAmount

/-- The specification's amount gate restated over parsed amounts
(`rawValue ≥ target − 5 % · target`), used to compare the SPEC's words with
the embedded code. -/
def specAmountGateQ (transactionAmount target : ℚ) : Bool :=
  target - target * (5 / 100) ≤ transactionAmount

/-- A payment session, as created by `PaymentSessionManager.createSession`
and mutated by `updateSession` / `completeSession` / `expireSession`
(src/src/payment, lines 498–628).  `matchedTransferId` models the
`metadata.transaction_id` recorded by `completeSession`. -/
structure Session where
  id : String
  amount : ℚ
  currency : String
  network : String
  status : SessionStatus
  createdAt : Nat
  expiresAt : Nat
  completedAt : Option Nat
  matchedTransferId : Option Nat
deriving DecidableEq, Repr

/-- `PaymentSessionManager.completeSession` (lines 620–628): an
unconditional `updateSession` setting `status := COMPLETED`,
`completed_at := now` and recording the transaction id — there is no guard
on the session's current status. -/
def completeSessionOp (now : Nat) (sessions : List Session) (sid : String)
    (tid : Nat) : List Session :=
  sessions.map fun s =>
    if s.id = sid then
      { s with
        status := SessionStatus.COMPLETED
        completedAt := some now
        matchedTransferId := some tid }
    else
      s

/-- `PaymentSessionManager.expireSession` (lines 608–612): an unconditional
`updateSession` setting `status := EXPIRED`. -/
def expireSessionOp (sessions : List Session) (sid : String) :
    List Session :=
  sessions.map fun s =>
    if s.id = sid then { s with status := SessionStatus.EXPIRED } else s

/-- The `transaction.confirmed` event handler of
`PaymentProcessor.setupEventHandlers` (lines 103–134): look up the
transaction and the session; if both exist, call
`completePayment → completeSession` — with no amount verification, no
confirmation re-check and no session-status guard. -/
def handleTransactionConfirmed (now : Nat) (txs : List StoredTx)
    (sessions : List Session) (txId : Nat) (sessionId : String) :
    List Session :=
  match txs.find? (fun t => t.id = txId),
        sessions.find? (fun s => s.id = sessionId) with
  | some _, some _ => completeSessionOp now sessions sessionId txId
  | _, _ => sessions

/-- Input to `PaymentSessionManager.createSession`.  `amount` is the result
of `parseFloat(data.amount)` (`none` models an absent/falsy amount or a
`NaN` parse); `currency`/`network` use `none` for JS-falsy values;
`expirationMinutes` is `data.expiration_minutes`. -/
structure SessionInput where
  amount : Option ℚ
  currency : Option String
  network : Option String
  clientReferenceId : Option String
  expirationMinutes : Option Nat
deriving DecidableEq, Repr

/-- `PaymentSessionManager.validateSessionData` (lines 547–563): rejects a
missing/non-positive amount, a falsy currency, a falsy network, or a
network outside `{BEP20, POLYGON}`.  Returns the thrown error message, or
`none` on success.  Note: any truthy currency passes, and
`expiration_minutes` is not inspected at all. -/
def validateSessionData (d : SessionInput) : Option String :=
  match d.amount with
  | none => some "Amount is required and must be a positive number"
  | some a =>
    if a ≤ 0 then some "Amount is required and must be a positive number"
    else
      match d.currency with
      | none => some "Currency is required"
      | some _ =>
        match d.network with
        | none => some "Network is required"
        | some n =>
          if n = "BEP20" ∨ n = "POLYGON" then none
          else some "Network must be either BEP20 or POLYGON"

/-- `data.expiration_minutes || 30` (line 507): JS `||` replaces both an
absent value and `0` by the default 30. -/
def effectiveExpirationMinutes (d : SessionInput) : Nat :=
  match d.expirationMinutes with
  | none => 30
  | some 0 => 30
  | some n => n

/-- `PaymentSessionManager.createSession` (lines 498–540): validate, then
build a `PENDING` session with `expires_at = now + expirationMinutes`
(time measured in minutes).  `newId` stands for `crypto.randomUUID()`. -/
def createSession (now : Nat) (newId : String) (d : SessionInput) :
    Except String Session :=
  match validateSessionData d with
  | some e => Except.error e
  | none =>
      Except.ok
        { id := newId
          amount := d.amount.getD 0
          currency := d.currency.getD ""
          network := d.network.getD ""
          status := SessionStatus.PENDING
          createdAt := now
          expiresAt := now + effectiveExpirationMinutes d
          completedAt := none
          matchedTransferId := none }

/-- `TransactionStorage.addTransaction` (src/src/api/services, lines
18–50): `findIndex` on `txHash` alone; when found, the record at that index
is overwritten by the merged data (the incoming record sets every field),
otherwise the record is pushed.  Written as the equivalent
replace-first-match recursion. -/
def addTransaction : List StoredTx → StoredTx → List StoredTx
  | [], t => [t]
  | x :: xs, t =>
      if x.txHash = t.txHash then t :: xs else x :: addTransaction xs t

/-- A transaction receipt as consumed by
`TransactionStorage.updateTransactionStatus` (`web3.eth.getTransactionReceipt`):
mined block number and success flag (`receipt.status`). -/
structure Receipt where
  blockNumber : Int
  statusOk : Bool
deriving DecidableEq, Repr

/-- The per-record update performed by
`TransactionStorage.updateTransactionStatus` (lines 96–156) once the RPC
calls have returned: with a receipt, confirmations are recomputed as
`currentBlockNumber − receipt.blockNumber + 1` (`0` when the receipt has a
falsy block number) and the status is re-derived from scratch; without a
receipt, a positive explorer answer (`explorerConfirmed`, only reachable
for the supported networks) forces `status := CONFIRMED` with
`confirmations := requiredConfirmations`. -/
def updateTransactionStatusRecord (required : Int) (tx : StoredTx)
    (receipt : Option Receipt) (currentBlockNumber : Int)
    (explorerConfirmed : Bool) (now : Nat) : StoredTx :=
  match receipt with
  | some r =>
      let confirmations : Int :=
        if r.blockNumber = 0 then 0 else currentBlockNumber - r.blockNumber + 1
      let status :=
        if r.statusOk then
          if required ≤ confirmations then TxStatus.CONFIRMED
          else TxStatus.PENDING
        else TxStatus.FAILED
      { tx with
        status := status
        confirmations := confirmations
        blockNumber := r.blockNumber
        confirmedAt :=
          if status = TxStatus.CONFIRMED ∧ tx.confirmedAt = none then
            some now
          else
            tx.confirmedAt }
  | none =>
      if explorerConfirmed then
        { tx with
          status := TxStatus.CONFIRMED
          confirmations := required
          confirmedAt :=
            match tx.confirmedAt with
            | some t => some t
            | none => some now }
      else
        tx

/-- State of a `BEP20Listener` watcher: the transaction store, the
`lastCheckedBlock` cursor and the `isRunning` flag. -/
structure WatcherState where
  store : ListenerStore
  lastCheckedBlock : Int
  isRunning : Bool
deriving DecidableEq, Repr

/-- Sequential `processTransaction` loop of `BEP20Listener.poll` (lines
102–106): each item is either a fetched transaction that processes
successfully (`some tx`, updating the store) or the point where processing
raises (`none`); the first raised error stops the loop, keeps the store
mutations made so far, and reports failure. -/
def processAllTxs (cfg : ChainConfig) (now : Nat) (st : ListenerStore) :
    List (Option IncomingTx) → ListenerStore × Bool
  | [] => (st, true)
  | some tx :: rest =>
      processAllTxs cfg now (processTransaction cfg now st tx).1 rest
  | none :: _ => (st, false)

/-- `BEP20Listener.poll` (`unnamed/part_017`, lines 63–117).  `head` is the
result of `provider.getBlockNumber()`; `fetched = none` models
`checkAddressTransactions` throwing (its errors are re-thrown, line 191).
The cursor is advanced to `head` (via `updateLastCheckedBlock`) only after
every transaction processed without error; any exception lands in the
`catch` block, which leaves the cursor untouched. -/
def pollTick (cfg : ChainConfig) (now : Nat) (w : WatcherState) (head : Int)
    (fetched : Option (List (Option IncomingTx))) : WatcherState :=
  if ¬ w.isRunning then w
  else
    let fromBlock := bep20CatchupFrom w.lastCheckedBlock head
    if head < fromBlock then w
    else
      match fetched with
      | none => w
      | some items =>
          let res := processAllTxs cfg now w.store items
          if res.2 then
            { w with store := res.1, lastCheckedBlock := head }
          else
            { w with store := res.1 }

/-- `BEP20Listener.initialize` (`unnamed/part_017`, lines 42–54):
unconditionally sets `lastCheckedBlock` to the provider's current block
number. -/
def initListener (w : WatcherState) (head : Int) : WatcherState :=
  { w with lastCheckedBlock := head }

/-- `BaseBlockchainListener.start` (src/src/listeners, lines 45–69): a
no-op when already running; otherwise re-runs `initialize` (resetting the
cursor to the current head) and sets `isRunning`. -/
def startListener (w : WatcherState) (head : Int) : WatcherState :=
  if w.isRunning then w
  else { initListener w head with isRunning := true }

/-- `BaseBlockchainListener.stop` (src/src/listeners, lines 74–84): clears
the polling interval; the cursor is left as it is. -/
def stopListener (w : WatcherState) : WatcherState :=
  if ¬ w.isRunning then w
  else { w with isRunning := false }

/-- One scheduled tick: the head observed by `poll` and the fetch/process
outcome. -/
structure Tick where
  head : Int
  fetched : Option (List (Option IncomingTx))

/-- The block windows `(fromBlock, toBlock)` actually scanned (passed to
`checkAddressTransactions`) over a sequence of ticks.  A tick contributes a
window exactly when it is not skipped (`isRunning` and
`fromBlock ≤ head`). -/
def scannedWindows (cfg : ChainConfig) (now : Nat) (w : WatcherState) :
    List Tick → List (Int × Int)
  | [] => []
  | t :: rest =>
      let fromBlock := bep20CatchupFrom w.lastCheckedBlock t.head
      let here :=
        if w.isRunning ∧ fromBlock ≤ t.head then [(fromBlock, t.head)] else []
      here ++ scannedWindows cfg now (pollTick cfg now w t.head t.fetched) rest

/-! ### Concrete sample data used by counterexamples and witnesses -/

/-- A stored transaction record as the BEP20 listener would create it. -/
def sampleTxA : StoredTx :=
  { id := 1
    sessionId := "s1"
    txHash := "0xhash1"
    fromAddress := "0xpayer"
    toAddress := "0xrcpt"
    amount := "100"
    currency := "USDT-BEP20"
    network := "BEP20"
    confirmations := 12
    status := TxStatus.CONFIRMED
    detectedAt := 0
    confirmedAt := some 0
    blockNumber := 5 }

/-- A second observation sharing `sampleTxA`'s `txHash` but on a different
network. -/
def sampleTxB : StoredTx :=
  { sampleTxA with
    id := 2
    network := "POLYGON"
    currency := "USDT-Polygon"
    confirmations := 3
    status := TxStatus.PENDING
    confirmedAt := none }

/-- A `PENDING` stored transaction below the confirmation threshold. -/
def sampleTxC : StoredTx :=
  { sampleTxA with
    id := 3
    confirmations := 3
    status := TxStatus.PENDING
    confirmedAt := none }

/-- A chain configuration (BEP20 mainnet shape: 18 decimals, 10 required
confirmations). -/
def cfgSample : ChainConfig :=
  { name := "BEP20"
    tokenName := "USDT-BEP20"
    tokenDecimals := 18
    requiredConfirmations := 10
    recipientAddress := some "0xrcpt" }

/-- An incoming observation raising the confirmation count to 5. -/
def incSample : IncomingTx :=
  { hash := "0xhash1"
    fromAddr := "0xpayer"
    toAddr := "0xrcpt"
    value := 100 * 10 ^ 18
    blockNumber := 5
    confirmations := 5 }

/-- A payment session that has already been marked `EXPIRED`. -/
def sessionExpired : Session :=
  { id := "s1"
    amount := 100
    currency := "USDT"
    network := "BEP20"
    status := SessionStatus.EXPIRED
    createdAt := 0
    expiresAt := 10
    completedAt := none
    matchedTransferId := none }

/-- Chain configuration for the C1 counterexample: BEP20 shape, 18
decimals, 10 required confirmations, recipient `0xrcpt`. -/
def c1Cfg : ChainConfig :=
  { name := "BEP20"
    tokenName := "USDT-BEP20"
    tokenDecimals := 18
    requiredConfirmations := 10
    recipientAddress := some "0xrcpt" }

/-- A transfer of 50 USDT (raw value `50·10^18`) with 12 confirmations to
the tracked recipient. -/
def c1Incoming : IncomingTx :=
  { hash := "0xdead"
    fromAddr := "0xpayer"
    toAddr := "0xrcpt"
    value := 50 * 10 ^ 18
    blockNumber := 900
    confirmations := 12 }

/-- A `PENDING` session expecting 100 USDT at the session id the listener
resolves for the recipient address. -/
def c1Session : Session :=
  { id := "mock_session_for_0xrcpt"
    amount := 100
    currency := "USDT"
    network := "BEP20"
    status := SessionStatus.PENDING
    createdAt := 0
    expiresAt := 1000
    completedAt := none
    matchedTransferId := none }

/-- The completed session produced in the C1 scenario. -/
def c1Completed : Session :=
  { c1Session with
    status := SessionStatus.COMPLETED
    completedAt := some 8
    matchedTransferId := some 0 }

/-- The watcher state used by the C7 and C10 witnesses. -/
def wSample : WatcherState :=
  { store := { txs := [], nextId := 0 }
    lastCheckedBlock := 100
    isRunning := true }

/-- Chain configuration for the C9 witness (18-decimal token, recipient
`0xabc`). -/
def c9Cfg : ChainConfig :=
  { name := "BEP20_TESTNET"
    tokenName := "USDT-Testnet"
    tokenDecimals := 18
    requiredConfirmations := 2
    recipientAddress := some "0xabc" }

/-- A transfer of raw value `1.5·10^18` (1.5 tokens) to the tracked
recipient. -/
def c9Incoming : IncomingTx :=
  { hash := "0xbeef"
    fromAddr := "0xpayer"
    toAddr := "0xabc"
    value := 1500000000000000000
    blockNumber := 77
    confirmations := 1 }

/-! ### C6 — bounded catch-up clamp -/

/-- C6 counterexample.  The claim asserts the clamp fires whenever
`head − from + 1 > maxBlockRange` (500), in particular for a backlog of
exactly 501 blocks.  With `lastCheckedBlock = 0` and `head = 501` the
backlog is `501 − 1 + 1 = 501 > 500`, yet `BEP20Listener.poll` leaves
`from = 1` (its condition is `head > from + 500`, which 501 fails), and
does not set `from := head − 500 + 1 = 2`. -/
theorem catchup_clamp_counterexample :
    bep20CatchupFrom 0 501 = 1 ∧
    (501 : Int) - (0 + 1) + 1 > 500 ∧
    bep20CatchupFrom 0 501 ≠ 501 - 500 + 1 := by
  decide

/-- C6 amended: the clamp fires iff `head > from + 500` (backlog of at
least 502 blocks); when it fires `from := head − 499`, so exactly 500
blocks are scanned; otherwise `from = lastCheckedBlock + 1` is left
unchanged (a backlog of exactly 501 blocks is scanned unclamped). -/
theorem catchup_clamp_amended (last head : Int) :
    (head > last + 501 →
      bep20CatchupFrom last head = head - 499 ∧
      head - bep20CatchupFrom last head + 1 = 500) ∧
    (head ≤ last + 501 → bep20CatchupFrom last head = last + 1) := by
  constructor <;> intro h <;> simp only [bep20CatchupFrom] <;> split <;> omega

/-- Witness for `catchup_clamp_amended` at backlog 502 (clamped to the
most recent 500 blocks) and backlog 190 (unclamped). -/
theorem catchup_clamp_amended_witness :
    bep20CatchupFrom 0 502 = 502 - 499 ∧ bep20CatchupFrom 10 200 = 10 + 1 :=
  ⟨((catchup_clamp_amended 0 502).1 (by decide)).1,
    (catchup_clamp_amended 10 200).2 (by decide)⟩

/-! ### C2 — amount match policy -/

/-- C2 counterexample.  The claim asserts the match gate accepts exactly
when the received amount is at least `target − 5 %·target`.  Take
`session.amount = 100` and a received amount of `96` (with ample
confirmations, 12 against a threshold of 10): the −5 % bound accepts it
(`96 ≥ 95`), but `PaymentProcessor.verifyPaymentAmount` rejects it
(`|96 − 100| = 4 > 0.1` of 100) and `handlePaymentAmountMismatch` treats
it as an underpayment, so the detection path does not complete the
session. -/
theorem amount_gate_counterexample :
    specAmountGateQ 96 100 = true ∧
    verifyPaymentAmount 96 100 = false ∧
    detectionPathCompletes 96 100 12 10 = false := by
  have hv : verifyPaymentAmount 96 100 = false := by
    simp only [verifyPaymentAmount, decide_eq_false_iff_not]
    norm_num
  refine ⟨?_, hv, ?_⟩
  · simp only [specAmountGateQ, decide_eq_true_eq]
    norm_num
  simp only [detectionPathCompletes, hv, Bool.false_eq_true, if_false,
    decide_eq_false_iff_not]
  norm_num

/-- C2 amended: the gate cited by the claim
(`PaymentProcessor.verifyPaymentAmount` + `handlePaymentAmountMismatch`)
is a ±0.1 % band on parsed amounts, with overpayments completing anyway;
so, given enough confirmations, the detection path completes exactly when
`transactionAmount ≥ session.amount − 0.1 %·session.amount` — a −0.1 %
lower bound with no upper bound, not −5 %.  The −5 % smallest-unit bound
of the claim exists only as the listener-side gate applied when
`config.targetAmount` is set (`targetAmountGate`), where it is exactly
`rawValue ≥ target − target·5/100`. -/
theorem amount_gate_amended (t s : ℚ) (confs required : Int)
    (hs : 0 < s) (hc : required ≤ confs) :
    (detectionPathCompletes t s confs required = true ↔
      s - s * (1 / 1000) ≤ t) ∧
    (∀ raw target : Nat,
      targetAmountGate raw target = true ↔ target - target * 5 / 100 ≤ raw) := by
  constructor
  · by_cases hb : |t - s| ≤ s * (1 / 1000)
    · have hv : verifyPaymentAmount t s = true := by
        simp only [verifyPaymentAmount, decide_eq_true_eq]
        exact hb
      simp only [detectionPathCompletes, hv, if_true, decide_eq_true_eq]
      have h1 : -(s * (1 / 1000)) ≤ t - s := (abs_le.mp hb).1
      constructor
      · intro _
        linarith
      · intro _
        exact hc
    · have hv : verifyPaymentAmount t s = false := by
        simp only [verifyPaymentAmount, decide_eq_false_iff_not]
        exact hb
      simp only [detectionPathCompletes, hv, Bool.false_eq_true, if_false,
        decide_eq_true_eq]
      constructor
      · intro h1
        nlinarith
      · intro h1
        by_contra h2
        push_neg at h2
        have habs : |t - s| = s - t := by
          rw [abs_of_nonpos (by linarith)]
          ring
        rw [habs] at hb
        push_neg at hb
        linarith
  · intro raw target
    simp only [targetAmountGate, decide_eq_true_eq, Nat.not_lt]

/-- Witness for `amount_gate_amended`: `999` against a session amount of
`1000` sits exactly on the −0.1 % bound and completes; `95` against a
target of `100` smallest units sits exactly on the listener's −5 % bound
and is accepted. -/
theorem amount_gate_amended_witness :
    detectionPathCompletes 999 1000 12 10 = true ∧
    targetAmountGate 95 100 = true := by
  have h := amount_gate_amended 999 1000 12 10 (by norm_num) (by decide)
  exact ⟨h.1.mpr (by norm_num), (h.2 95 100).mpr (by decide)⟩

/-! ### C5 — transfer deduplication -/

/-- Every hash in the store after `addTransaction` is either an old hash
or the new record's hash. -/
theorem addTransaction_hash_subset (t : StoredTx) :
    ∀ (xs : List StoredTx) (y : String),
      y ∈ (addTransaction xs t).map StoredTx.txHash →
      y ∈ xs.map StoredTx.txHash ∨ y = t.txHash := by
  intro xs
  induction xs with
  | nil =>
      intro y hy
      simp only [addTransaction, List.map_cons, List.map_nil,
        List.mem_singleton] at hy
      exact Or.inr hy
  | cons x xs ih =>
      intro y hy
      by_cases hxt : x.txHash = t.txHash
      · simp only [addTransaction, if_pos hxt, List.map_cons,
          List.mem_cons] at hy
        rcases hy with hy | hy
        · exact Or.inr hy
        · exact Or.inl (by simp [hy])
      · simp only [addTransaction, if_neg hxt, List.map_cons,
          List.mem_cons] at hy ⊢
        rcases hy with hy | hy
        · exact Or.inl (Or.inl hy)
        · rcases ih y hy with h | h
          · exact Or.inl (Or.inr h)
          · exact Or.inr h

/-- C5 counterexample.  The claim asserts that observations sharing a
`txHash` but differing in `network` are kept as distinct records.
`TransactionStorage.addTransaction` deduplicates on `txHash` alone: after
adding `sampleTxA` (network BEP20, hash `0xhash1`) and then `sampleTxB`
(network POLYGON, same hash), the store holds a single record — the
second observation overwrote the first across networks. -/
theorem dedup_counterexample :
    addTransaction (addTransaction [] sampleTxA) sampleTxB = [sampleTxB] ∧
    (addTransaction (addTransaction [] sampleTxA) sampleTxB).length = 1 ∧
    sampleTxA.network ≠ sampleTxB.network ∧
    sampleTxA.txHash = sampleTxB.txHash := by
  refine ⟨by decide, by decide, by decide, by decide⟩

/-- C5 amended: the dedup key is `txHash` alone (no `logIndex` is stored
at all).  If the store holds pairwise-distinct hashes, then after
`addTransaction` it still does, exactly one record carries the incoming
hash, re-delivery of a present hash keeps the store length (it overwrites
the first record with that hash, regardless of its `network`), and an
absent hash is appended. -/
theorem dedup_amended (store : List StoredTx) (t : StoredTx)
    (h : (store.map StoredTx.txHash).Nodup) :
    ((addTransaction store t).map StoredTx.txHash).Nodup ∧
    (addTransaction store t).countP (fun x => x.txHash = t.txHash) = 1 ∧
    ((∃ x ∈ store, x.txHash = t.txHash) →
      (addTransaction store t).length = store.length) ∧
    ((∀ x ∈ store, x.txHash ≠ t.txHash) →
      addTransaction store t = store ++ [t]) := by
  induction store with
  | nil =>
      refine ⟨by simp [addTransaction], by simp [addTransaction], ?_, ?_⟩
      · rintro ⟨x, hx, -⟩
        exact absurd hx (List.not_mem_nil x)
      · intro _
        rfl
  | cons x xs ih =>
      rw [List.map_cons, List.nodup_cons] at h
      obtain ⟨hx_not, hxs⟩ := h
      by_cases hxt : x.txHash = t.txHash
      · have habs : ∀ y ∈ xs, y.txHash ≠ t.txHash := by
          intro y hy hyt
          exact hx_not (by rw [hxt, ← hyt]; exact List.mem_map_of_mem _ hy)
        refine ⟨?_, ?_, ?_, ?_⟩
        · simp only [addTransaction, if_pos hxt, List.map_cons,
            List.nodup_cons]
          exact ⟨by rw [← hxt]; exact hx_not, hxs⟩
        · simp only [addTransaction, if_pos hxt, List.countP_cons]
          have hzero : xs.countP (fun y => y.txHash = t.txHash) = 0 := by
            rw [List.countP_eq_zero]
            intro y hy
            simpa using habs y hy
          simp [hzero]
        · intro _
          simp [addTransaction, if_pos hxt]
        · intro hall
          exact absurd hxt (hall x (List.mem_cons_self x xs))
      · obtain ⟨ih1, ih2, ih3, ih4⟩ := ih hxs
        refine ⟨?_, ?_, ?_, ?_⟩
        · simp only [addTransaction, if_neg hxt, List.map_cons,
            List.nodup_cons]
          refine ⟨?_, ih1⟩
          intro hmem
          rcases addTransaction_hash_subset t xs x.txHash hmem with hh | hh
          · exact hx_not hh
          · exact hxt hh
        · simp only [addTransaction, if_neg hxt, List.countP_cons]
          simp [ih2, hxt]
        · rintro ⟨y, hy, hyt⟩
          rcases List.mem_cons.mp hy with rfl | hy2
          · exact absurd hyt hxt
          · simp only [addTransaction, if_neg hxt, List.length_cons]
            rw [ih3 ⟨y, hy2, hyt⟩]
        · intro hall
          have := ih4 (fun y hy => hall y (List.mem_cons_of_mem x hy))
          simp [addTransaction, if_neg hxt, this]

/-- Witness for `dedup_amended`: re-delivering `sampleTxB` (same hash,
different network) into a store holding `sampleTxA` keeps the length at 1
with exactly one record for that hash. -/
theorem dedup_amended_witness :
    (addTransaction [sampleTxA] sampleTxB).countP
      (fun x => x.txHash = sampleTxB.txHash) = 1 ∧
    (addTransaction [sampleTxA] sampleTxB).length = [sampleTxA].length := by
  have h := dedup_amended [sampleTxA] sampleTxB (by decide)
  exact ⟨h.2.1, h.2.2.1 ⟨sampleTxA, by decide, by decide⟩⟩

/-! ### C8 — CreateSession input validation -/

/-- C8 counterexample.  The claim asserts `CreateSession` fails iff one of
its constraints is violated, among them `currency == "USDT"` and
`expirationMinutes ∈ [1, 1440]`.  The input below violates both (currency
`"BTC"`, 2000 expiration minutes), yet `validateSessionData` accepts it —
the code only checks that `currency` is truthy and never inspects
`expiration_minutes` — and `createSession` succeeds, producing a `PENDING`
session expiring 2000 minutes out. -/
theorem create_session_validation_counterexample :
    let d : SessionInput :=
      { amount := some 50
        currency := some "BTC"
        network := some "BEP20"
        clientReferenceId := none
        expirationMinutes := some 2000 }
    validateSessionData d = none ∧
    createSession 1000 "ps_1" d =
      Except.ok
        { id := "ps_1"
          amount := 50
          currency := "BTC"
          network := "BEP20"
          status := SessionStatus.PENDING
          createdAt := 1000
          expiresAt := 1000 + 2000
          completedAt := none
          matchedTransferId := none } ∧
    some "BTC" ≠ some "USDT" ∧ ¬ (2000 ≤ 1440) := by
  refine ⟨by decide, ?_, by decide, by decide⟩
  rfl

/-- C8 amended: `createSession` fails iff the amount is absent/non-positive,
the currency is falsy, or the network is not one of the two literals
`BEP20`/`POLYGON` (so `BEP20_TESTNET`, though configured, is rejected);
any truthy currency is accepted and `expiration_minutes` is never
validated; on success the session is `PENDING` with
`expires_at = now + (expiration_minutes || 30)` (absent or `0` defaults
to 30). -/
theorem create_session_validation_amended (now : Nat) (newId : String)
    (d : SessionInput) :
    (validateSessionData d = none ↔
      (∃ a, d.amount = some a ∧ 0 < a) ∧ d.currency ≠ none ∧
        (d.network = some "BEP20" ∨ d.network = some "POLYGON")) ∧
    (∀ s, createSession now newId d = Except.ok s →
      s.status = SessionStatus.PENDING ∧
      s.expiresAt = now + effectiveExpirationMinutes d) ∧
    (validateSessionData d = none →
      ∃ s, createSession now newId d = Except.ok s) := by
  refine ⟨?_, ?_, ?_⟩
  · obtain ⟨a, c, n, r, e⟩ := d
    cases a with
    | none => simp [validateSessionData]
    | some av =>
      cases c with
      | none =>
          simp only [validateSessionData]
          by_cases hav : av ≤ 0 <;> simp [hav]
      | some cv =>
        cases n with
        | none =>
            simp only [validateSessionData]
            by_cases hav : av ≤ 0 <;> simp [hav]
        | some nv =>
            simp only [validateSessionData]
            by_cases hav : av ≤ 0
            · simp only [if_pos hav]
              constructor
              · intro h
                exact absurd h (by simp)
              · rintro ⟨⟨a2, ha2, ha2pos⟩, -, -⟩
                rw [Option.some_inj] at ha2
                subst ha2
                exact absurd ha2pos (not_lt.mpr hav)
            · by_cases hnv : nv = "BEP20" ∨ nv = "POLYGON"
              · simp only [if_neg hav, if_pos hnv]
                constructor
                · intro _
                  refine ⟨⟨av, rfl, not_le.mp hav⟩, by simp, ?_⟩
                  rcases hnv with h | h <;> simp [h]
                · intro _
                  trivial
              · simp only [if_neg hav, if_neg hnv]
                constructor
                · intro h
                  exact absurd h (by simp)
                · rintro ⟨-, -, hnet⟩
                  refine absurd ?_ hnv
                  rcases hnet with h | h <;>
                    rw [Option.some_inj] at h <;> [exact Or.inl h; exact Or.inr h]
  · intro s hs
    unfold createSession at hs
    cases hval : validateSessionData d with
    | some e => rw [hval] at hs; exact absurd hs (by simp)
    | none =>
        rw [hval] at hs
        rw [Except.ok.injEq] at hs
        subst hs
        exact ⟨rfl, rfl⟩
  · intro hval
    unfold createSession
    rw [hval]
    exact ⟨_, rfl⟩

/-- Witness for `create_session_validation_amended` on a valid input:
amount 10, currency USDT, network POLYGON, no expiration given (defaults
to 30 minutes). -/
theorem create_session_validation_amended_witness :
    ∃ s, createSession 500 "ps_2"
        { amount := some 10
          currency := some "USDT"
          network := some "POLYGON"
          clientReferenceId := none
          expirationMinutes := none } = Except.ok s := by
  have h := create_session_validation_amended 500 "ps_2"
    { amount := some 10
      currency := some "USDT"
      network := some "POLYGON"
      clientReferenceId := none
      expirationMinutes := none }
  exact h.2.2 (h.1.mpr ⟨⟨10, rfl, by norm_num⟩, by simp, Or.inr rfl⟩)

/-! ### C4 — monotonic confirmations -/

/-- C4 counterexample.  `sampleTxA` is stored as `CONFIRMED` with 12
confirmations.  A later `updateTransactionStatus` run (threshold 10)
obtains a receipt in block 100 while the freshly queried head is also
block 100: the code recomputes `confirmations := 100 − 100 + 1 = 1` and
re-derives `status := PENDING` — the recorded confirmations drop from 12
to 1 and the `CONFIRMED` status regresses to `PENDING`. -/
theorem monotonic_confirmations_counterexample :
    sampleTxA.status = TxStatus.CONFIRMED ∧
    sampleTxA.confirmations = 12 ∧
    (updateTransactionStatusRecord 10 sampleTxA
        (some { blockNumber := 100, statusOk := true }) 100 false 50).confirmations = 1 ∧
    (updateTransactionStatusRecord 10 sampleTxA
        (some { blockNumber := 100, statusOk := true }) 100 false 50).status =
      TxStatus.PENDING := by
  refine ⟨rfl, by decide, by decide, by decide⟩

/-- C4 amended: the listener's existing-transaction branch
(`processTransaction`, lines 145–163) is monotone — it never lowers the
recorded confirmations and never regresses a `CONFIRMED` status — but
`TransactionStorage.updateTransactionStatus` recomputes confirmations
from the current head without comparing against the stored value, so the
claimed invariant holds only on the listener path. -/
theorem monotonic_confirmations_amended (cfg : ChainConfig) (ex : StoredTx)
    (tx : IncomingTx) :
    ex.confirmations ≤ (applyObservationToExisting cfg ex tx).confirmations ∧
    (ex.status = TxStatus.CONFIRMED →
      (applyObservationToExisting cfg ex tx).status = TxStatus.CONFIRMED) := by
  unfold applyObservationToExisting
  by_cases hlt : ex.confirmations < tx.confirmations
  · rw [if_pos hlt]
    refine ⟨le_of_lt hlt, ?_⟩
    intro hst
    simp only
    rw [if_neg (by simp [hst])]
    exact hst
  · rw [if_neg hlt]
    exact ⟨le_refl _, fun hst => hst⟩

/-- Witness for `monotonic_confirmations_amended`: observing `sampleTxC`
(3 confirmations, `PENDING`) again with 5 confirmations raises the count,
and observing `sampleTxA` (already `CONFIRMED`) keeps it `CONFIRMED`. -/
theorem monotonic_confirmations_amended_witness :
    sampleTxC.confirmations ≤
      (applyObservationToExisting cfgSample sampleTxC incSample).confirmations ∧
    (applyObservationToExisting cfgSample sampleTxA incSample).status =
      TxStatus.CONFIRMED :=
  ⟨(monotonic_confirmations_amended cfgSample sampleTxC incSample).1,
    (monotonic_confirmations_amended cfgSample sampleTxA incSample).2 rfl⟩

/-! ### Registry helper lemmas shared by C1 and C3 -/

/-- When both lookups succeed, the `transaction.confirmed` handler reduces
to the unconditional `completeSession` update. -/
theorem handleConfirmed_eq_complete (now : Nat) (txs : List StoredTx)
    (sessions : List Session) (tid : Nat) (sid : String)
    (h1 : (txs.find? (fun t => t.id = tid)).isSome)
    (h2 : (sessions.find? (fun s => s.id = sid)).isSome) :
    handleTransactionConfirmed now txs sessions tid sid =
      completeSessionOp now sessions sid tid := by
  rw [Option.isSome_iff_exists] at h1 h2
  obtain ⟨t0, ht0⟩ := h1
  obtain ⟨s0, hs0⟩ := h2
  unfold handleTransactionConfirmed
  rw [ht0, hs0]

/-- Every session carrying the targeted id after `completeSession` is
`COMPLETED` with the transaction id recorded — whatever its previous
status was. -/
theorem completeSessionOp_status (now : Nat) (sessions : List Session)
    (sid : String) (tid : Nat) :
    ∀ s ∈ completeSessionOp now sessions sid tid,
      s.id = sid →
        s.status = SessionStatus.COMPLETED ∧ s.matchedTransferId = some tid := by
  intro s hs hid
  unfold completeSessionOp at hs
  rw [List.mem_map] at hs
  obtain ⟨s0, hs0, hmap⟩ := hs
  by_cases h : s0.id = sid
  · rw [if_pos h] at hmap
    rw [← hmap]
    exact ⟨rfl, rfl⟩
  · rw [if_neg h] at hmap
    rw [← hmap] at hid
    exact absurd hid h

/-! ### C3 — no completion after expiry -/

/-- C3 counterexample.  `sessionExpired` has status `EXPIRED`; a later
`transaction.confirmed` event for stored transaction `sampleTxA` (id 1)
drives `completeSession`, which has no status guard: the session
transitions `EXPIRED → COMPLETED`.  The transfer store is untouched, so
the transfer does remain recorded. -/
theorem expiry_absorption_counterexample :
    sessionExpired.status = SessionStatus.EXPIRED ∧
    handleTransactionConfirmed 99 [sampleTxA] [sessionExpired] 1 "s1" =
      [{ sessionExpired with
          status := SessionStatus.COMPLETED
          completedAt := some 99
          matchedTransferId := some 1 }] := by
  exact ⟨rfl, by decide⟩

/-- C3 amended: `EXPIRED` is not absorbing.  Whenever the transaction and
the session both resolve, the `transaction.confirmed` handler performs the
unconditional `completeSession` update, and every session with the
targeted id — whatever its previous status, `EXPIRED` included — ends up
`COMPLETED` with the transfer recorded as `matchedTransferId`. -/
theorem expiry_absorption_amended (now : Nat) (txs : List StoredTx)
    (sessions : List Session) (tid : Nat) (sid : String)
    (h1 : (txs.find? (fun t => t.id = tid)).isSome)
    (h2 : (sessions.find? (fun s => s.id = sid)).isSome) :
    handleTransactionConfirmed now txs sessions tid sid =
      completeSessionOp now sessions sid tid ∧
    ∀ s ∈ handleTransactionConfirmed now txs sessions tid sid,
      s.id = sid →
        s.status = SessionStatus.COMPLETED ∧ s.matchedTransferId = some tid := by
  have heq := handleConfirmed_eq_complete now txs sessions tid sid h1 h2
  refine ⟨heq, ?_⟩
  rw [heq]
  exact completeSessionOp_status now sessions sid tid

/-- Witness for `expiry_absorption_amended` on the concrete expired
session and stored transfer. -/
theorem expiry_absorption_amended_witness :
    handleTransactionConfirmed 99 [sampleTxA] [sessionExpired] 1 "s1" =
      completeSessionOp 99 [sessionExpired] "s1" 1 :=
  (expiry_absorption_amended 99 [sampleTxA] [sessionExpired] 1 "s1"
    (by decide) (by decide)).1

/-! ### C1 — completion safety -/

/-- Soundness of the listener's `transaction.confirmed` emission: whenever
`processTransaction` emits `Event.confirmed`, the resulting store contains
a record with the emitted id whose status is `CONFIRMED` and whose
confirmations meet `chain.requiredConfirmations`.  (No amount condition
appears: the listener in `src/src/listeners` has no amount gate.) -/
theorem confirmed_event_sound (cfg : ChainConfig) (now : Nat)
    (st : ListenerStore) (tx : IncomingTx) (tid : Nat) (sid : String)
    (hev : Event.confirmed tid sid ∈ (processTransaction cfg now st tx).2) :
    ∃ t' ∈ (processTransaction cfg now st tx).1.txs,
      t'.id = tid ∧ t'.status = TxStatus.CONFIRMED ∧
      cfg.requiredConfirmations ≤ t'.confirmations := by
  unfold processTransaction at hev ⊢
  revert hev
  cases hfa : findPaymentAddressByAddress cfg tx.toAddr with
  | none =>
      intro hev
      exact absurd hev (List.not_mem_nil _)
  | some sid2 =>
      cases hfind : st.txs.find? (fun t => t.txHash = tx.hash) with
      | some ex =>
          intro hev
          dsimp only at hev ⊢
          by_cases hlt : ex.confirmations < tx.confirmations
          · rw [if_pos hlt] at hev ⊢
            by_cases hc : cfg.requiredConfirmations ≤ tx.confirmations ∧
                ex.status ≠ TxStatus.CONFIRMED
            · rw [if_pos hc] at hev
              simp only [List.mem_singleton, Event.confirmed.injEq] at hev
              obtain ⟨hid, -⟩ := hev
              refine ⟨applyObservationToExisting cfg ex tx, ?_, ?_, ?_, ?_⟩
              · exact List.mem_map.mpr
                  ⟨ex, List.mem_of_find?_eq_some hfind, by rw [if_pos rfl]⟩
              · unfold applyObservationToExisting
                rw [if_pos hlt, ← hid]
              · unfold applyObservationToExisting
                rw [if_pos hlt]
                simp only
                rw [if_pos hc]
              · unfold applyObservationToExisting
                rw [if_pos hlt]
                exact hc.1
            · rw [if_neg hc] at hev
              exact absurd hev (List.not_mem_nil _)
          · rw [if_neg hlt] at hev
            exact absurd hev (List.not_mem_nil _)
      | none =>
          intro hev
          dsimp only at hev ⊢
          rw [List.mem_cons] at hev
          rcases hev with heq | hev2
          · exact absurd heq (by simp)
          · by_cases henough : cfg.requiredConfirmations ≤ tx.confirmations
            · rw [if_pos henough] at hev2
              simp only [List.mem_singleton, Event.confirmed.injEq] at hev2
              obtain ⟨hid, -⟩ := hev2
              refine ⟨newTxRecord cfg now st tx sid2, ?_, ?_, ?_, ?_⟩
              · exact List.mem_append_right _ (List.mem_singleton_self _)
              · rw [← hid]
              · unfold newTxRecord
                simp only
                rw [if_pos henough]
              · unfold newTxRecord
                exact henough
            · rw [if_neg henough] at hev2
              exact absurd hev2 (List.not_mem_nil _)

/-- C1 counterexample.  The listener observes a 50-USDT transfer against a
session expecting 100 USDT.  It records the transfer and — confirmations
sufficing — emits `transaction.confirmed`; the handler then completes the
session unconditionally.  The resulting state has the session `COMPLETED`
while the raw value `50·10^18` fails the −5 % lower tolerance bound
against the target `100·10^18`: the confirmation-driven completion path
completes a session whose transfer fails the amount gate. -/
theorem completion_safety_counterexample :
    (processTransaction c1Cfg 7 ⟨[], 0⟩ c1Incoming).2 =
      [Event.detected 0 "mock_session_for_0xrcpt",
        Event.confirmed 0 "mock_session_for_0xrcpt"] ∧
    (handleTransactionConfirmed 8 (processTransaction c1Cfg 7 ⟨[], 0⟩ c1Incoming).1.txs
        [c1Session] 0 "mock_session_for_0xrcpt").map Session.status =
      [SessionStatus.COMPLETED] ∧
    specAmountGate (50 * 10 ^ 18) (100 * 10 ^ 18) = false ∧
    c1Session.status = SessionStatus.PENDING := by
  refine ⟨by decide, by decide, by decide, rfl⟩

/-- C1 amended: a session completed through the confirmation-driven path
does point at a transfer that is `CONFIRMED` with
`confirmations ≥ chain.requiredConfirmations` (the conditions under which
the listener emits `transaction.confirmed`), and `matchedTransferId` is
recorded — but no amount condition is enforced anywhere on this path, so
the −5 % tolerance conjunct of the claim does not hold. -/
theorem completion_safety_amended (cfg : ChainConfig) (now now2 : Nat)
    (st : ListenerStore) (tx : IncomingTx) (sessions : List Session)
    (tid : Nat) (sid : String)
    (hev : Event.confirmed tid sid ∈ (processTransaction cfg now st tx).2)
    (hs : (sessions.find? (fun s => s.id = sid)).isSome) :
    (∃ t' ∈ (processTransaction cfg now st tx).1.txs,
      t'.id = tid ∧ t'.status = TxStatus.CONFIRMED ∧
      cfg.requiredConfirmations ≤ t'.confirmations) ∧
    (∀ s ∈ handleTransactionConfirmed now2
        (processTransaction cfg now st tx).1.txs sessions tid sid,
      s.id = sid →
        s.status = SessionStatus.COMPLETED ∧ s.matchedTransferId = some tid) := by
  have hsound := confirmed_event_sound cfg now st tx tid sid hev
  refine ⟨hsound, ?_⟩
  obtain ⟨t', ht'mem, ht'id, -, -⟩ := hsound
  have hfind : (((processTransaction cfg now st tx).1.txs).find?
      (fun t => t.id = tid)).isSome := by
    rw [List.find?_isSome]
    exact ⟨t', ht'mem, by simp [ht'id]⟩
  rw [handleConfirmed_eq_complete now2 _ sessions tid sid hfind hs]
  exact completeSessionOp_status now2 sessions sid tid

/-- Witness for `completion_safety_amended` on the concrete C1 scenario. -/
theorem completion_safety_amended_witness :
    c1Completed.status = SessionStatus.COMPLETED ∧
    c1Completed.matchedTransferId = some 0 :=
  (completion_safety_amended c1Cfg 7 8 ⟨[], 0⟩ c1Incoming [c1Session] 0
      "mock_session_for_0xrcpt" (by decide) (by decide)).2
    c1Completed (by decide) rfl

/-! ### C7 — cursor safety -/

/-- The transaction-processing loop reports success exactly when no item
raised. -/
theorem processAllTxs_ok (cfg : ChainConfig) (now : Nat) :
    ∀ (items : List (Option IncomingTx)) (st : ListenerStore),
      (processAllTxs cfg now st items).2 = true ↔ ¬ none ∈ items := by
  intro items
  induction items with
  | nil =>
      intro st
      simp [processAllTxs]
  | cons hd rest ih =>
      intro st
      cases hd with
      | some tx =>
          rw [processAllTxs]
          rw [ih]
          simp
      | none =>
          rw [processAllTxs]
          simp

/-- C7: on every poll tick, the cursor is advanced to `head` only when the
whole scanned window succeeded; a failed `getLogs` (`fetched = none`) or
any raising `processTransaction` (a `none` item) leaves the cursor
unchanged, as does a skipped tick.  Conversely, a running tick with a
non-empty window and error-free fetch and processing does advance the
cursor to `head`. -/
theorem cursor_safety (cfg : ChainConfig) (now : Nat) (w : WatcherState)
    (head : Int) (fetched : Option (List (Option IncomingTx))) :
    ((pollTick cfg now w head fetched).lastCheckedBlock = head ∨
      (pollTick cfg now w head fetched).lastCheckedBlock = w.lastCheckedBlock) ∧
    (fetched = none →
      (pollTick cfg now w head fetched).lastCheckedBlock = w.lastCheckedBlock) ∧
    (∀ items, fetched = some items → none ∈ items →
      (pollTick cfg now w head fetched).lastCheckedBlock = w.lastCheckedBlock) ∧
    (∀ items, fetched = some items → ¬ none ∈ items → w.isRunning = true →
      bep20CatchupFrom w.lastCheckedBlock head ≤ head →
      (pollTick cfg now w head fetched).lastCheckedBlock = head) := by
  refine ⟨?_, ?_, ?_, ?_⟩
  · cases fetched with
    | none =>
        simp only [pollTick]
        split_ifs <;> exact Or.inr rfl
    | some items =>
        simp only [pollTick]
        split_ifs <;> first | exact Or.inr rfl | exact Or.inl rfl
  · intro h
    subst h
    simp only [pollTick]
    split_ifs <;> rfl
  · intro items h hmem
    subst h
    simp only [pollTick]
    split_ifs
    all_goals try rfl
    all_goals
      exact absurd hmem
        ((processAllTxs_ok cfg now items w.store).mp (by assumption))
  · intro items h hnone hrun hle
    subst h
    simp only [pollTick]
    split_ifs
    all_goals try rfl
    all_goals first
      | exact absurd hrun (by assumption)
      | exact absurd
          (show head < bep20CatchupFrom w.lastCheckedBlock head by assumption)
          (not_lt.mpr hle)
      | exact absurd ((processAllTxs_ok cfg now items w.store).mpr hnone)
          (by assumption)

/-- Witness for `cursor_safety`: a clean tick at head 105 (window
101–105, nothing fetched, no errors) advances the cursor to 105. -/
theorem cursor_safety_witness :
    (pollTick cfgSample 0 wSample 105 (some [])).lastCheckedBlock = 105 :=
  (cursor_safety cfgSample 0 wSample 105 (some [])).2.2.2 [] rfl
    (by decide) rfl (by decide)

/-! ### C9 — amount normalization truncates -/

/-- C9: for every transfer recorded by the new-transaction branch of
`processTransaction`, the stored amount string is the decimal rendering of
`⌊rawValue / 10^tokenDecimals⌋` — integer division via
`formatTokenAmount`, so the fractional part is discarded and any raw value
below one whole token unit is recorded as `"0"`. -/
theorem amount_truncation (cfg : ChainConfig) (now : Nat)
    (st : ListenerStore) (tx : IncomingTx) (sid : String)
    (h1 : findPaymentAddressByAddress cfg tx.toAddr = some sid)
    (h2 : st.txs.find? (fun t => t.txHash = tx.hash) = none) :
    (processTransaction cfg now st tx).1.txs =
      st.txs ++ [newTxRecord cfg now st tx sid] ∧
    (newTxRecord cfg now st tx sid).amount =
      toString (tx.value / 10 ^ cfg.tokenDecimals) ∧
    (tx.value < 10 ^ cfg.tokenDecimals →
      (newTxRecord cfg now st tx sid).amount = "0") := by
  refine ⟨?_, rfl, ?_⟩
  · unfold processTransaction
    rw [h1]
    dsimp only
    rw [h2]
  · intro hlt
    show toString (tx.value / 10 ^ cfg.tokenDecimals) = "0"
    rw [Nat.div_eq_of_lt hlt]
    rfl

/-- Witness for `amount_truncation`: raw value `1500000000000000000` with
18 decimals is recorded as `"1"`, not `"1.5"`. -/
theorem amount_truncation_witness :
    (processTransaction c9Cfg 0 ⟨[], 0⟩ c9Incoming).1.txs.map StoredTx.amount =
      ["1"] := by
  have h := amount_truncation c9Cfg 0 ⟨[], 0⟩ c9Incoming
    "mock_session_for_0xabc" rfl rfl
  rw [h.1, List.nil_append, List.map_cons, List.map_nil, h.2.1]
  decide

/-! ### C10 — restart resets the cursor -/

/-- The window start computed for a tick always lies strictly above the
current cursor. -/
theorem bep20CatchupFrom_gt (last head : Int) : last < bep20CatchupFrom last head := by
  simp only [bep20CatchupFrom]
  split <;> omega

/-- A poll tick never moves the cursor backwards. -/
theorem pollTick_cursor_mono (cfg : ChainConfig) (now : Nat)
    (w : WatcherState) (head : Int)
    (fetched : Option (List (Option IncomingTx))) :
    w.lastCheckedBlock ≤ (pollTick cfg now w head fetched).lastCheckedBlock := by
  have hgt := bep20CatchupFrom_gt w.lastCheckedBlock head
  cases fetched with
  | none =>
      simp only [pollTick]
      split_ifs <;> omega
  | some items =>
      simp only [pollTick]
      split_ifs <;> (try dsimp only) <;> omega

/-- Every window scanned from a watcher state starts strictly above that
state's cursor. -/
theorem scannedWindows_lb (cfg : ChainConfig) (now : Nat) :
    ∀ (ticks : List Tick) (w : WatcherState),
      ∀ win ∈ scannedWindows cfg now w ticks, w.lastCheckedBlock < win.1 := by
  intro ticks
  induction ticks with
  | nil =>
      intro w win hwin
      exact absurd hwin (List.not_mem_nil _)
  | cons t rest ih =>
      intro w win hwin
      unfold scannedWindows at hwin
      rw [List.mem_append] at hwin
      rcases hwin with hwin | hwin
      · by_cases hc : w.isRunning ∧ bep20CatchupFrom w.lastCheckedBlock t.head ≤ t.head
        · rw [if_pos hc, List.mem_singleton] at hwin
          rw [hwin]
          exact bep20CatchupFrom_gt w.lastCheckedBlock t.head
        · rw [if_neg hc] at hwin
          exact absurd hwin (List.not_mem_nil _)
      · have hrec := ih (pollTick cfg now w t.head t.fetched) win hwin
        have hmono := pollTick_cursor_mono cfg now w t.head t.fetched
        omega

/-- C10: `start()` after `stop()` re-runs `initialize`, which resets the
cursor to the chain head `head2` observed at restart, regardless of where
the cursor stood before; every window any subsequent sequence of poll
ticks scans starts strictly after `head2`, so blocks mined while the
listener was stopped (all ≤ `head2`) are never scanned. -/
theorem restart_resets_cursor (cfg : ChainConfig) (now : Nat)
    (w : WatcherState) (head2 : Int) (ticks : List Tick) :
    (startListener (stopListener w) head2).lastCheckedBlock = head2 ∧
    ∀ win ∈ scannedWindows cfg now (startListener (stopListener w) head2) ticks,
      head2 < win.1 := by
  have hstop : (stopListener w).isRunning = false := by
    unfold stopListener
    split_ifs with h
    · rfl
    · simpa using h
  have hcur : (startListener (stopListener w) head2).lastCheckedBlock = head2 := by
    unfold startListener
    rw [if_neg (by simp [hstop])]
    rfl
  refine ⟨hcur, ?_⟩
  intro win hwin
  have := scannedWindows_lb cfg now ticks (startListener (stopListener w) head2)
    win hwin
  rw [hcur] at this
  exact this

/-- Witness for `restart_resets_cursor`: restarting at head 100 and then
polling at head 700 scans the clamped window starting at block 201 —
strictly above 100, so blocks mined before the restart stay unscanned. -/
theorem restart_resets_cursor_witness :
    (startListener (stopListener wSample) 100).lastCheckedBlock = 100 ∧
    (100 : Int) < 201 :=
  ⟨(restart_resets_cursor cfgSample 0 wSample 100 [⟨700, some []⟩]).1,
    (restart_resets_cursor cfgSample 0 wSample 100 [⟨700, some []⟩]).2
      (201, 700) (by decide)⟩

end BPP
